import Mathlib

/-
Shallow embedding of the logfire-go logging facade (package logfire,
file logfire.go), together with a small operational model of the
OpenTelemetry tracer operations the facade calls (span start / set
attributes / end, context-embedded span propagation).

Modelling conventions:
* A Go context is modelled by the optional span id it carries.
* The span store of the tracer provider is a list of span records, newest
  first; starting a span prepends a fresh record.
* Span handles are direct references (by id); operations through a
  handle update the first matching record, mirroring a Go pointer to
  one span object.
* Go nil-pointer panics are modelled by returning none.
* os.Getenv("LOGFIRE_TOKEN") is passed in as an explicit string.
* The fallible external constructors (otlptracehttp.New, resource.New)
  are modelled by boolean oracles saying whether they succeed.
-/

namespace Logfire

/-- Severity ordinals of the OpenTelemetry log package
(otellog.SeverityTrace = 1, SeverityDebug = 5, SeverityInfo = 9,
SeverityWarn = 13, SeverityError = 17, SeverityFatal = 21). -/
inductive Severity where
  | trace
  | debug
  | info
  | warn
  | error
  | fatal
deriving DecidableEq

/-- Numeric value of a severity, as produced by the Go conversion
int(severity) on the otellog constants. -/
def Severity.toNat : Severity → Nat
  | .trace => 1
  | .debug => 5
  | .info => 9
  | .warn => 13
  | .error => 17
  | .fatal => 21

/-- An OpenTelemetry attribute value (the facade only uses string and
int attributes). -/
inductive AttrVal where
  | str (s : String)
  | int (n : Int)
deriving DecidableEq

/-- One span record held by the tracer provider. -/
structure SpanRec where
  sid : Nat
  name : String
  parent : Option Nat
  attrs : List (String × AttrVal)
  ended : Bool
deriving DecidableEq

/-- A Go context, modelled by the span it carries (if any). -/
structure Ctx where
  currentSpan : Option Nat
deriving DecidableEq

/-- context.Background() carries no span. -/
def Ctx.background : Ctx := { currentSpan := none }

/-- The span store of the installed tracer provider: spans newest
first, plus the next fresh span id. -/
structure TraceState where
  spans : List SpanRec
  nextId : Nat
deriving DecidableEq

/-- Update the first record satisfying p (a span handle is a direct
reference to one record). -/
def updateFirst (p : SpanRec → Bool) (f : SpanRec → SpanRec) : List SpanRec → List SpanRec
  | [] => []
  | r :: rs => if p r then f r :: rs else r :: updateFirst p f rs

/-- tracer.Start(ctx, name): allocate a fresh span whose parent is the
span carried by ctx; return the derived context, the id of the new span and
the new store. -/
def tracerStart (ctx : Ctx) (name : String) (tr : TraceState) : Ctx × Nat × TraceState :=
  ({ currentSpan := some tr.nextId }, tr.nextId,
    { spans := { sid := tr.nextId, name := name, parent := ctx.currentSpan,
                 attrs := [], ended := false } :: tr.spans,
      nextId := tr.nextId + 1 })

/-- span.SetAttributes: append attributes to the referenced span. -/
def setAttributes (sid : Nat) (kvs : List (String × AttrVal)) (tr : TraceState) : TraceState :=
  { tr with spans := (updateFirst (fun r => r.sid == sid)
      (fun r => { r with attrs := r.attrs ++ kvs }) tr.spans) }

/-- span.End(): mark the referenced span complete. -/
def endSpan (sid : Nat) (tr : TraceState) : TraceState :=
  { tr with spans := (updateFirst (fun r => r.sid == sid)
      (fun r => { r with ended := true }) tr.spans) }

/-- A span handle held by a SpanLogger: nil (the global logger), the
no-op span returned by oteltrace.SpanFromContext on a spanless
context, or a real span. -/
inductive SpanHandle where
  | nil
  | noop
  | real (sid : Nat)
deriving DecidableEq

/-- SpanLogger creates a span for the current context (fields spanCtx
and span of the Go struct). -/
structure SpanLogger where
  spanCtx : Ctx
  span : SpanHandle
deriving DecidableEq

/-- The package-level mutable state of the facade: globalTracer
(modelled by whether a tracer handle is installed, plus the span
store), the registered provider, globalServiceName and globalLogger. -/
structure GlobalState where
  tracerInstalled : Bool
  providerRegistered : Bool
  globalServiceName : String
  globalLogger : Option SpanLogger
  trace : TraceState
deriving DecidableEq

/-- The four attributes sendLog sets on the emitted record. -/
def logAttrs (msg : String) (sev : Severity) : List (String × AttrVal) :=
  [("logfire.span_type", AttrVal.str "log"),
   ("logfire.msg_template", AttrVal.str "log message template"),
   ("logfire.msg", AttrVal.str msg),
   ("logfire.level_num", AttrVal.int (sev.toNat : Int))]

/-- Body of sendLog on the span store: start a span named by the
message, set the four attributes, and end it (the deferred End runs
after SetAttributes). -/
def sendLogTr (ctx : Ctx) (msg : String) (sev : Severity) (tr : TraceState) : TraceState :=
  match tracerStart ctx msg tr with
  | (_, sid, tr1) => endSpan sid (setAttributes sid (logAttrs msg sev) tr1)

/-- sendLog(ctx, msg, severity): uses globalTracer; a nil tracer
(before initialization) panics, modelled by none. -/
def sendLog (g : GlobalState) (ctx : Ctx) (msg : String) (sev : Severity) : Option GlobalState :=
  if g.tracerInstalled then some { g with trace := sendLogTr ctx msg sev g.trace } else none

/-- (s *SpanLogger) Trace: log in the stored context of the logger. The
returned logger is the receiver, unchanged by the call. -/
def SpanLogger.Trace (s : SpanLogger) (msg : String) (g : GlobalState) :
    Option (SpanLogger × GlobalState) :=
  (sendLog g s.spanCtx msg .trace).map (fun g1 => (s, g1))

/-- (s *SpanLogger) Debug. -/
def SpanLogger.Debug (s : SpanLogger) (msg : String) (g : GlobalState) :
    Option (SpanLogger × GlobalState) :=
  (sendLog g s.spanCtx msg .debug).map (fun g1 => (s, g1))

/-- (s *SpanLogger) Info. -/
def SpanLogger.Info (s : SpanLogger) (msg : String) (g : GlobalState) :
    Option (SpanLogger × GlobalState) :=
  (sendLog g s.spanCtx msg .info).map (fun g1 => (s, g1))

/-- (s *SpanLogger) Warn. -/
def SpanLogger.Warn (s : SpanLogger) (msg : String) (g : GlobalState) :
    Option (SpanLogger × GlobalState) :=
  (sendLog g s.spanCtx msg .warn).map (fun g1 => (s, g1))

/-- (s *SpanLogger) Error. -/
def SpanLogger.Error (s : SpanLogger) (msg : String) (g : GlobalState) :
    Option (SpanLogger × GlobalState) :=
  (sendLog g s.spanCtx msg .error).map (fun g1 => (s, g1))

/-- (s *SpanLogger) Fatal. -/
def SpanLogger.Fatal (s : SpanLogger) (msg : String) (g : GlobalState) :
    Option (SpanLogger × GlobalState) :=
  (sendLog g s.spanCtx msg .fatal).map (fun g1 => (s, g1))

/-- Dispatch one of the six severity methods of SpanLogger. -/
def SpanLogger.logMethod (s : SpanLogger) (sev : Severity) (msg : String) (g : GlobalState) :
    Option (SpanLogger × GlobalState) :=
  match sev with
  | .trace => s.Trace msg g
  | .debug => s.Debug msg g
  | .info => s.Info msg g
  | .warn => s.Warn msg g
  | .error => s.Error msg g
  | .fatal => s.Fatal msg g

/-- (s *SpanLogger) Context: returns the stored span context. -/
def SpanLogger.Context (s : SpanLogger) : Ctx := s.spanCtx

/-- (s *SpanLogger) Close: s.span.End(). A nil span handle (the global
logger) panics, modelled by none; the SDK no-op span ignores End; a
real span is marked complete. -/
def SpanLogger.Close (s : SpanLogger) (g : GlobalState) : Option GlobalState :=
  match s.span with
  | .nil => none
  | .noop => some g
  | .real sid => some { g with trace := endSpan sid g.trace }

/-- Flat Trace: delegates to the package-global SpanLogger (a nil
globalLogger, before initialization, panics). -/
def Trace (g : GlobalState) (msg : String) : Option GlobalState :=
  match g.globalLogger with
  | none => none
  | some l => (l.Trace msg g).map Prod.snd

/-- Flat Debug. -/
def Debug (g : GlobalState) (msg : String) : Option GlobalState :=
  match g.globalLogger with
  | none => none
  | some l => (l.Debug msg g).map Prod.snd

/-- Flat Info. -/
def Info (g : GlobalState) (msg : String) : Option GlobalState :=
  match g.globalLogger with
  | none => none
  | some l => (l.Info msg g).map Prod.snd

/-- Flat Warn. -/
def Warn (g : GlobalState) (msg : String) : Option GlobalState :=
  match g.globalLogger with
  | none => none
  | some l => (l.Warn msg g).map Prod.snd

/-- Flat Error. -/
def Error (g : GlobalState) (msg : String) : Option GlobalState :=
  match g.globalLogger with
  | none => none
  | some l => (l.Error msg g).map Prod.snd

/-- Flat Fatal. -/
def Fatal (g : GlobalState) (msg : String) : Option GlobalState :=
  match g.globalLogger with
  | none => none
  | some l => (l.Fatal msg g).map Prod.snd

/-- Dispatch one of the six flat logging functions. -/
def flatLog (g : GlobalState) (sev : Severity) (msg : String) : Option GlobalState :=
  match sev with
  | .trace => Trace g msg
  | .debug => Debug g msg
  | .info => Info g msg
  | .warn => Warn g msg
  | .error => Error g msg
  | .fatal => Fatal g msg

/-- NewSpanLogger(ctx, spanName): start a child span of the span
carried by ctx (a nil globalTracer panics). -/
def NewSpanLogger (g : GlobalState) (ctx : Ctx) (spanName : String) :
    Option (SpanLogger × GlobalState) :=
  if g.tracerInstalled then
    match tracerStart ctx spanName g.trace with
    | (spanCtx, sid, tr) =>
      some ({ spanCtx := spanCtx, span := .real sid }, { g with trace := tr })
  else none

/-- oteltrace.SpanFromContext: the span carried by the context, or the
no-op span of the SDK when the context carries none. -/
def SpanFromContext (ctx : Ctx) : SpanHandle :=
  match ctx.currentSpan with
  | some sid => .real sid
  | none => .noop

/-- FromContext(ctx): wrap the context and its (possibly no-op) span
without starting a new span. -/
def FromContext (ctx : Ctx) : SpanLogger :=
  { spanCtx := ctx, span := SpanFromContext ctx }

/-- The config struct: ServiceName, APIToken, Endpoint. -/
structure Config where
  ServiceName : String
  APIToken : String
  Endpoint : String
deriving DecidableEq

/-- defaultLogfireEndpoint constant. -/
def defaultLogfireEndpoint : String := "https://logfire-api.pydantic.dev/v1"

/-- WithServiceName sets the service name in the Config. -/
def WithServiceName (name : String) : Config → Config :=
  fun c => { c with ServiceName := name }

/-- WithEndpoint sets the endpoint in the Config. -/
def WithEndpoint (endpoint : String) : Config → Config :=
  fun c => { c with Endpoint := endpoint }

/-- WithAPIToken sets the API token in the Config. -/
def WithAPIToken (token : String) : Config → Config :=
  fun c => { c with APIToken := token }

/-- newConfigWithDefaults: defaults (ServiceName its zero value "",
APIToken from the LOGFIRE_TOKEN environment value, Endpoint the fixed
address), then each option applied in order. -/
def newConfigWithDefaults (env : String) (options : List (Config → Config)) : Config :=
  options.foldl (fun c o => o c)
    { ServiceName := "", APIToken := env, Endpoint := defaultLogfireEndpoint }

/-- The three recognized option constructors, as data (used to state
claims quantifying over supplied options). -/
inductive OptDesc where
  | serviceName (s : String)
  | endpoint (s : String)
  | apiToken (s : String)
deriving DecidableEq

/-- Interpretation of a recognized option as the corresponding source
setter. -/
def OptDesc.toOption : OptDesc → Config → Config
  | .serviceName s => WithServiceName s
  | .endpoint s => WithEndpoint s
  | .apiToken s => WithAPIToken s

/-- Outcome of Initialize: normal return of a teardown function and
nil error, an error return, or process termination via log.Fatalf. -/
inductive InitResult where
  | ok (g : GlobalState)
  | err (msg : String) (g : GlobalState)
  | fatal (msg : String)
deriving DecidableEq

/-- Initialize: build the config, store the service name in the
package-global, validate the token (error return), construct the
exporter and resource (log.Fatalf on failure), register the provider
and install the tracer handle and the global logger. -/
def Initialize (g : GlobalState) (env : String) (opts : List (Config → Config))
    (exporterOk resourceOk : Bool) : InitResult :=
  let config := newConfigWithDefaults env opts
  let g1 := { g with globalServiceName := config.ServiceName }
  if config.APIToken = "" then .err "config.APIToken is required" g1
  else if exporterOk = false then .fatal "Failed to create exporter"
  else if resourceOk = false then .fatal "Failed to create resource"
  else .ok { g1 with
    providerRegistered := true,
    tracerInstalled := true,
    globalLogger := some { spanCtx := Ctx.background, span := .nil } }

/-- The flat logging functions of the earlier iteration of the facade,
which call sendLog directly with context.Background(). -/
def TraceOld (g : GlobalState) (msg : String) : Option GlobalState :=
  sendLog g Ctx.background msg .trace

/-- Flat Debug of the earlier iteration. -/
def DebugOld (g : GlobalState) (msg : String) : Option GlobalState :=
  sendLog g Ctx.background msg .debug

/-- Flat Info of the earlier iteration. -/
def InfoOld (g : GlobalState) (msg : String) : Option GlobalState :=
  sendLog g Ctx.background msg .info

/-- Flat Warn of the earlier iteration. -/
def WarnOld (g : GlobalState) (msg : String) : Option GlobalState :=
  sendLog g Ctx.background msg .warn

/-- Flat Error of the earlier iteration. -/
def ErrorOld (g : GlobalState) (msg : String) : Option GlobalState :=
  sendLog g Ctx.background msg .error

/-- Flat Fatal of the earlier iteration. -/
def FatalOld (g : GlobalState) (msg : String) : Option GlobalState :=
  sendLog g Ctx.background msg .fatal

/-- Dispatch one of the six earlier-iteration flat functions. -/
def flatLogOld (g : GlobalState) (sev : Severity) (msg : String) : Option GlobalState :=
  match sev with
  | .trace => TraceOld g msg
  | .debug => DebugOld g msg
  | .info => InfoOld g msg
  | .warn => WarnOld g msg
  | .error => ErrorOld g msg
  | .fatal => FatalOld g msg

/-! Helper definitions used to state the claims. -/

/-- Ended flag of the span a handle with id sid refers to. -/
def spanEnded (tr : TraceState) (sid : Nat) : Option Bool :=
  (tr.spans.find? (fun r => r.sid == sid)).map SpanRec.ended

/-- Value of the last service-name option in a list, else the default. -/
def lastServiceName (ds : List OptDesc) (dflt : String) : String :=
  ds.foldl (fun acc d => match d with | .serviceName s => s | _ => acc) dflt

/-- Value of the last API-token option in a list, else the default. -/
def lastAPIToken (ds : List OptDesc) (dflt : String) : String :=
  ds.foldl (fun acc d => match d with | .apiToken s => s | _ => acc) dflt

/-- Value of the last endpoint option in a list, else the default. -/
def lastEndpoint (ds : List OptDesc) (dflt : String) : String :=
  ds.foldl (fun acc d => match d with | .endpoint s => s | _ => acc) dflt

/-- A fresh, pre-initialization global state. -/
def freshState : GlobalState :=
  { tracerInstalled := false, providerRegistered := false, globalServiceName := "",
    globalLogger := none, trace := { spans := [], nextId := 0 } }

/-- A successfully initialized global state (as produced by a
successful initialization on freshState with token "tok"). -/
def readyState : GlobalState :=
  { tracerInstalled := true, providerRegistered := true, globalServiceName := "",
    globalLogger := some { spanCtx := Ctx.background, span := .nil },
    trace := { spans := [], nextId := 0 } }

/-! Helper lemmas. -/

theorem sendLogTr_eq (ctx : Ctx) (msg : String) (sev : Severity) (tr : TraceState) :
    sendLogTr ctx msg sev tr =
      { spans := { sid := tr.nextId, name := msg, parent := ctx.currentSpan,
                   attrs := logAttrs msg sev, ended := true } :: tr.spans,
        nextId := tr.nextId + 1 } := by
  simp [sendLogTr, tracerStart, setAttributes, endSpan, updateFirst]

theorem newSpanLogger_eq (g : GlobalState) (ctx : Ctx) (name : String)
    (hT : g.tracerInstalled = true) :
    NewSpanLogger g ctx name =
      some ({ spanCtx := { currentSpan := some g.trace.nextId },
              span := .real g.trace.nextId },
            { g with trace :=
              { spans := { sid := g.trace.nextId, name := name, parent := ctx.currentSpan,
                           attrs := [], ended := false } :: g.trace.spans,
                nextId := g.trace.nextId + 1 } }) := by
  simp [NewSpanLogger, tracerStart, hT]

theorem applyOpts_eq (ds : List OptDesc) : ∀ c : Config,
    (ds.map OptDesc.toOption).foldl (fun c o => o c) c =
      { ServiceName := lastServiceName ds c.ServiceName,
        APIToken := lastAPIToken ds c.APIToken,
        Endpoint := lastEndpoint ds c.Endpoint } := by
  induction ds with
  | nil => intro c; rfl
  | cons d ds ih =>
    intro c
    cases d <;>
      simp [lastServiceName, lastAPIToken, lastEndpoint, OptDesc.toOption,
        WithServiceName, WithEndpoint, WithAPIToken, ih]

/-! Claim theorems. -/

/-- C4: the configuration is built from defaults (service name empty,
API token from the LOGFIRE_TOKEN environment value, endpoint the fixed
remote address) by applying each supplied option in order as a pure
setter of its one field, so the last-supplied value for a field
wins. -/
theorem claim_C4 (env : String) (ds : List OptDesc) :
    newConfigWithDefaults env (ds.map OptDesc.toOption) =
      { ServiceName := lastServiceName ds "",
        APIToken := lastAPIToken ds env,
        Endpoint := lastEndpoint ds defaultLogfireEndpoint }
    ∧ (∀ (c : Config) (s : String), WithServiceName s c = { c with ServiceName := s })
    ∧ (∀ (c : Config) (s : String), WithEndpoint s c = { c with Endpoint := s })
    ∧ (∀ (c : Config) (s : String), WithAPIToken s c = { c with APIToken := s }) := by
  refine ⟨?_, fun c s => rfl, fun c s => rfl, fun c s => rfl⟩
  simpa [newConfigWithDefaults] using applyOpts_eq ds _

/-- C1 is false as stated: when the effective token is empty,
Initialize does return the configuration error and installs neither a
tracer handle nor a provider nor a global logger, but it overwrites
the facade-global stored service name before the token check. Here the
stored name "previous-service" is overwritten with "". -/
theorem claim_C1_counterexample :
    Initialize
      { tracerInstalled := false, providerRegistered := false,
        globalServiceName := "previous-service", globalLogger := none,
        trace := { spans := [], nextId := 0 } } "" [] true true =
      InitResult.err "config.APIToken is required"
        { tracerInstalled := false, providerRegistered := false,
          globalServiceName := "", globalLogger := none,
          trace := { spans := [], nextId := 0 } }
    ∧ ("" : String) ≠ "previous-service" := by
  exact ⟨by decide, by decide⟩

/-- C1 (amended): if the effective API token is empty, Initialize
returns the configuration error and leaves the tracer handle, the
provider registration, the global logger and the span store untouched;
however the facade-global stored service name is overwritten with the
configured service name before the token check. -/
theorem claim_C1 (g : GlobalState) (env : String) (ds : List OptDesc)
    (eok rok : Bool)
    (h : (newConfigWithDefaults env (ds.map OptDesc.toOption)).APIToken = "") :
    ∃ g1, Initialize g env (ds.map OptDesc.toOption) eok rok =
        InitResult.err "config.APIToken is required" g1
      ∧ g1.tracerInstalled = g.tracerInstalled
      ∧ g1.providerRegistered = g.providerRegistered
      ∧ g1.globalLogger = g.globalLogger
      ∧ g1.trace = g.trace
      ∧ g1.globalServiceName =
          (newConfigWithDefaults env (ds.map OptDesc.toOption)).ServiceName := by
  refine ⟨{ g with globalServiceName :=
    (newConfigWithDefaults env (ds.map OptDesc.toOption)).ServiceName },
    ?_, rfl, rfl, rfl, rfl, rfl⟩
  simp [ Initialize, h]

/-- C1 witness: concrete run with empty environment token and no
options. -/
theorem claim_C1_witness :
    ∃ g1, Initialize freshState "" (([] : List OptDesc).map OptDesc.toOption) true true =
        InitResult.err "config.APIToken is required" g1
      ∧ g1.tracerInstalled = freshState.tracerInstalled
      ∧ g1.providerRegistered = freshState.providerRegistered
      ∧ g1.globalLogger = freshState.globalLogger
      ∧ g1.trace = freshState.trace
      ∧ g1.globalServiceName =
          (newConfigWithDefaults "" (([] : List OptDesc).map OptDesc.toOption)).ServiceName :=
  claim_C1 freshState "" [] true true (by decide)

/-- C8: an explicit WithAPIToken "" overrides the non-empty
environment token, so Initialize returns the missing-token
configuration error. -/
theorem claim_C8 (g : GlobalState) (env : String) (henv : env ≠ "") (eok rok : Bool) :
    (newConfigWithDefaults env [WithAPIToken ""]).APIToken = ""
    ∧ env ≠ ""
    ∧ ∃ g1, Initialize g env [WithAPIToken ""] eok rok =
        InitResult.err "config.APIToken is required" g1 := by
  refine ⟨rfl, henv, ⟨{ g with globalServiceName := "" }, ?_⟩⟩
  simp [ Initialize, newConfigWithDefaults, WithAPIToken, defaultLogfireEndpoint]

/-- C8 witness: concrete run with environment token "secret-token" and
an explicit empty token override. -/
theorem claim_C8_witness :
    (newConfigWithDefaults "secret-token" [WithAPIToken ""]).APIToken = ""
    ∧ "secret-token" ≠ ""
    ∧ ∃ g1, Initialize freshState "secret-token" [WithAPIToken ""] true true =
        InitResult.err "config.APIToken is required" g1 :=
  claim_C8 freshState "secret-token" (by decide) true true

/-- Shape of the global state after a successful initialization: the
tracer handle is installed, the global logger stores the background
context and a nil span handle, and the span store is untouched. -/
theorem initialize_ok_shape (g g1 : GlobalState) (env : String)
    (opts : List (Config → Config)) (eok rok : Bool)
    (h : Initialize g env opts eok rok = InitResult.ok g1) :
    g1.tracerInstalled = true
    ∧ g1.globalLogger = some { spanCtx := Ctx.background, span := .nil }
    ∧ g1.trace = g.trace := by
  simp only [ Initialize] at h
  by_cases h1 : (newConfigWithDefaults env opts).APIToken = ""
  · simp [h1] at h
  · cases eok with
    | false => simp [h1] at h
    | true =>
      cases rok with
      | false => simp [h1] at h
      | true =>
        simp [h1] at h
        subst h
        exact ⟨rfl, rfl, rfl⟩

/-- C2: after successful initialization, each of the six flat logging
functions succeeds (no panic) and emits exactly one record, named by
the message, rooted (no parent), closed, and carrying exactly the four
attributes logfire.span_type = "log", the fixed template string, the
literal message, and logfire.level_num with the severity ordinals
Trace = 1, Debug = 5, Info = 9, Warn = 13, Error = 17, Fatal = 21. -/
theorem claim_C2 (g g1 : GlobalState) (env : String) (opts : List (Config → Config))
    (eok rok : Bool) (sev : Severity) (msg : String)
    (h : Initialize g env opts eok rok = InitResult.ok g1) :
    flatLog g1 sev msg = some { g1 with trace :=
      { spans := [{ sid := g1.trace.nextId, name := msg, parent := none,
                    attrs := [("logfire.span_type", AttrVal.str "log"),
                              ("logfire.msg_template", AttrVal.str "log message template"),
                              ("logfire.msg", AttrVal.str msg),
                              ("logfire.level_num", AttrVal.int (sev.toNat : Int))],
                    ended := true }] ++ g1.trace.spans,
        nextId := g1.trace.nextId + 1 } }
    ∧ Severity.toNat .trace = 1 ∧ Severity.toNat .debug = 5 ∧ Severity.toNat .info = 9
    ∧ Severity.toNat .warn = 13 ∧ Severity.toNat .error = 17 ∧ Severity.toNat .fatal = 21 := by
  obtain ⟨hT, hL, -⟩ := initialize_ok_shape g g1 env opts eok rok h
  refine ⟨?_, rfl, rfl, rfl, rfl, rfl, rfl⟩
  cases sev <;>
    simp [flatLog, Trace, Debug, Info, Warn, Error, Fatal,
      SpanLogger.Trace, SpanLogger.Debug, SpanLogger.Info, SpanLogger.Warn,
      SpanLogger.Error, SpanLogger.Fatal, sendLog, sendLogTr_eq, logAttrs,
      Severity.toNat, Ctx.background, hT, hL]

/-- C2 witness: the initialized state after a concrete run with token
"tok", logging Info "hello". -/
theorem claim_C2_witness :
    flatLog readyState .info "hello" = some { readyState with trace :=
      { spans := [{ sid := readyState.trace.nextId, name := "hello", parent := none,
                    attrs := [("logfire.span_type", AttrVal.str "log"),
                              ("logfire.msg_template", AttrVal.str "log message template"),
                              ("logfire.msg", AttrVal.str "hello"),
                              ("logfire.level_num", AttrVal.int (Severity.toNat .info : Int))],
                    ended := true }] ++ readyState.trace.spans,
        nextId := readyState.trace.nextId + 1 } }
    ∧ Severity.toNat .trace = 1 ∧ Severity.toNat .debug = 5 ∧ Severity.toNat .info = 9
    ∧ Severity.toNat .warn = 13 ∧ Severity.toNat .error = 17 ∧ Severity.toNat .fatal = 21 :=
  claim_C2 freshState readyState "tok" [] true true .info "hello" (by decide)

/-- C7: when the token check passes but exporter or resource
construction fails, Initialize terminates the process via log.Fatalf;
this path neither returns the teardown function nor returns an error
value. -/
theorem claim_C7 (g : GlobalState) (env : String) (opts : List (Config → Config))
    (eok rok : Bool)
    (htok : (newConfigWithDefaults env opts).APIToken ≠ "")
    (hfail : eok = false ∨ rok = false) :
    (∃ m, Initialize g env opts eok rok = InitResult.fatal m)
    ∧ (∀ g1, Initialize g env opts eok rok ≠ InitResult.ok g1)
    ∧ (∀ m g1, Initialize g env opts eok rok ≠ InitResult.err m g1) := by
  have hmain : ∃ m, Initialize g env opts eok rok = InitResult.fatal m := by
    rcases hfail with h | h
    · subst h
      exact ⟨"Failed to create exporter", by simp [ Initialize, htok]⟩
    · subst h
      cases eok with
      | false => exact ⟨"Failed to create exporter", by simp [ Initialize, htok]⟩
      | true => exact ⟨"Failed to create resource", by simp [ Initialize, htok]⟩
  obtain ⟨m, hm⟩ := hmain
  refine ⟨⟨m, hm⟩, ?_, ?_⟩
  · intro g1
    rw [hm]
    simp
  · intro m1 g1
    rw [hm]
    simp

/-- C7 witness: concrete run with a non-empty token and a failing
exporter constructor. -/
theorem claim_C7_witness :
    (∃ m, Initialize freshState "tok" [] false true = InitResult.fatal m)
    ∧ (∀ g1, Initialize freshState "tok" [] false true ≠ InitResult.ok g1)
    ∧ (∀ m g1, Initialize freshState "tok" [] false true ≠ InitResult.err m g1) :=
  claim_C7 freshState "tok" [] false true (by decide) (Or.inl rfl)

/-- C6: a log call issued against a span-scoped logger leaves the
logger itself unchanged (same stored context, same span handle), and
the Context accessor keeps returning the stored span context. -/
theorem claim_C6 (s s1 : SpanLogger) (sev : Severity) (msg : String)
    (g g1 : GlobalState)
    (h : SpanLogger.logMethod s sev msg g = some (s1, g1)) :
    s1 = s ∧ s1.spanCtx = s.spanCtx ∧ s1.span = s.span
    ∧ SpanLogger.Context s1 = SpanLogger.Context s
    ∧ SpanLogger.Context s = s.spanCtx := by
  cases sev <;> cases ht : g.tracerInstalled <;>
    simp [SpanLogger.logMethod, SpanLogger.Trace, SpanLogger.Debug, SpanLogger.Info,
      SpanLogger.Warn, SpanLogger.Error, SpanLogger.Fatal, sendLog, ht] at h <;>
    (obtain ⟨h1, -⟩ := h; subst h1; exact ⟨rfl, rfl, rfl, rfl, rfl⟩)

/-- C6 witness: a concrete log call against a span-scoped logger on an
initialized state. -/
theorem claim_C6_witness :
    ({ spanCtx := { currentSpan := some 0 }, span := .real 0 } : SpanLogger) =
      { spanCtx := { currentSpan := some 0 }, span := .real 0 }
    ∧ ({ spanCtx := { currentSpan := some 0 }, span := .real 0 } : SpanLogger).spanCtx =
      ({ spanCtx := { currentSpan := some 0 }, span := .real 0 } : SpanLogger).spanCtx
    ∧ ({ spanCtx := { currentSpan := some 0 }, span := .real 0 } : SpanLogger).span =
      ({ spanCtx := { currentSpan := some 0 }, span := .real 0 } : SpanLogger).span
    ∧ SpanLogger.Context { spanCtx := { currentSpan := some 0 }, span := .real 0 } =
      SpanLogger.Context { spanCtx := { currentSpan := some 0 }, span := .real 0 }
    ∧ SpanLogger.Context { spanCtx := { currentSpan := some 0 }, span := .real 0 } =
      ({ spanCtx := { currentSpan := some 0 }, span := .real 0 } : SpanLogger).spanCtx :=
  claim_C6 { spanCtx := { currentSpan := some 0 }, span := .real 0 }
    { spanCtx := { currentSpan := some 0 }, span := .real 0 } .error "oops"
    readyState { readyState with trace := sendLogTr { currentSpan := some 0 } "oops" .error readyState.trace }
    (by decide)

/-- C10: with the package-global SpanLogger storing the background
context (as installed by initialization), each current-iteration flat
logging function is observationally equal to the flat function of the earlier
iteration that calls sendLog directly with the background
context. -/
theorem claim_C10 (g : GlobalState) (l : SpanLogger) (sev : Severity) (msg : String)
    (h : g.globalLogger = some l) (hl : l.spanCtx = Ctx.background) :
    flatLog g sev msg = flatLogOld g sev msg := by
  cases sev <;>
    simp [flatLog, flatLogOld, Trace, Debug, Info, Warn, Error, Fatal,
      TraceOld, DebugOld, InfoOld, WarnOld, ErrorOld, FatalOld,
      SpanLogger.Trace, SpanLogger.Debug, SpanLogger.Info, SpanLogger.Warn,
      SpanLogger.Error, SpanLogger.Fatal, h, hl, Option.map_map, Function.comp]

/-- C10 witness: concrete comparison of the two iterations on an
initialized state. -/
theorem claim_C10_witness :
    flatLog readyState .warn "hi" = flatLogOld readyState .warn "hi" :=
  claim_C10 readyState { spanCtx := Ctx.background, span := .nil } .warn "hi" rfl rfl

/-- C3: NewSpanLogger on a context carrying no span produces a
root-level scope (its span has no parent); on a context carrying a
context of a parent scope it produces a span nested under that parent;
and a log call issued through the nested logger parents its emitted
record under the span of that logger, a parent linkage different
from that of a flat log call (none). -/
theorem claim_C3 (g : GlobalState) (hT : g.tracerInstalled = true)
    (outerName innerName msg : String) (sev : Severity)
    (outer : SpanLogger) (g1 : GlobalState)
    (h1 : NewSpanLogger g Ctx.background outerName = some (outer, g1))
    (inner : SpanLogger) (g2 : GlobalState)
    (h2 : NewSpanLogger g1 outer.spanCtx innerName = some (inner, g2))
    (res : SpanLogger × GlobalState)
    (h3 : SpanLogger.logMethod inner sev msg g2 = some res) :
    outer.span = SpanHandle.real g.trace.nextId
    ∧ g1.trace.spans.head? = some { sid := g.trace.nextId, name := outerName,
                                    parent := none, attrs := [], ended := false }
    ∧ inner.span = SpanHandle.real g1.trace.nextId
    ∧ g2.trace.spans.head? = some { sid := g1.trace.nextId, name := innerName,
                                    parent := some g.trace.nextId, attrs := [],
                                    ended := false }
    ∧ res.2.trace.spans.head? = some { sid := g2.trace.nextId, name := msg,
                                       parent := some g1.trace.nextId,
                                       attrs := logAttrs msg sev, ended := true }
    ∧ some g1.trace.nextId ≠ (none : Option Nat) := by
  simp only [NewSpanLogger, tracerStart, hT, if_true, Option.some.injEq,
    Prod.mk.injEq] at h1
  obtain ⟨ho, hg1⟩ := h1
  subst ho
  subst hg1
  simp only [NewSpanLogger, tracerStart, hT, if_true, Option.some.injEq,
    Prod.mk.injEq] at h2
  obtain ⟨hi, hg2⟩ := h2
  subst hi
  subst hg2
  cases sev <;>
    simp [SpanLogger.logMethod, SpanLogger.Trace, SpanLogger.Debug, SpanLogger.Info,
      SpanLogger.Warn, SpanLogger.Error, SpanLogger.Fatal, sendLog, sendLogTr_eq,
      Ctx.background, hT] at h3 <;>
    (subst h3; exact ⟨rfl, rfl, rfl, rfl, rfl, by simp⟩)

/-- Concrete outer scope used by the C3 witness. -/
def c3Outer : SpanLogger := { spanCtx := { currentSpan := some 0 }, span := .real 0 }

/-- Concrete state after opening the outer scope, used by the C3
witness. -/
def c3G1 : GlobalState :=
  { readyState with trace :=
      { spans := [{ sid := 0, name := "outer", parent := none, attrs := [],
                    ended := false }],
        nextId := 1 } }

/-- Concrete inner scope used by the C3 witness. -/
def c3Inner : SpanLogger := { spanCtx := { currentSpan := some 1 }, span := .real 1 }

/-- Concrete state after opening the inner scope, used by the C3
witness. -/
def c3G2 : GlobalState :=
  { readyState with trace :=
      { spans := [{ sid := 1, name := "inner", parent := some 0, attrs := [],
                    ended := false },
                  { sid := 0, name := "outer", parent := none, attrs := [],
                    ended := false }],
        nextId := 2 } }

/-- Concrete result of logging Warn "x" through the inner scope, used
by the C3 witness. -/
def c3Res : SpanLogger × GlobalState :=
  (c3Inner,
    { readyState with trace :=
        { spans := [{ sid := 2, name := "x", parent := some 1,
                      attrs := logAttrs "x" .warn, ended := true },
                    { sid := 1, name := "inner", parent := some 0, attrs := [],
                      ended := false },
                    { sid := 0, name := "outer", parent := none, attrs := [],
                      ended := false }],
          nextId := 3 } })

/-- C3 witness: concrete nested scopes "outer" and "inner" on an
initialized state, logging Warn "x" through the inner scope. -/
theorem claim_C3_witness :
    c3Outer.span = SpanHandle.real readyState.trace.nextId
    ∧ c3G1.trace.spans.head? = some { sid := readyState.trace.nextId, name := "outer",
                                      parent := none, attrs := [], ended := false }
    ∧ c3Inner.span = SpanHandle.real c3G1.trace.nextId
    ∧ c3G2.trace.spans.head? = some { sid := c3G1.trace.nextId, name := "inner",
                                      parent := some readyState.trace.nextId, attrs := [],
                                      ended := false }
    ∧ c3Res.2.trace.spans.head? = some { sid := c3G2.trace.nextId, name := "x",
                                         parent := some c3G1.trace.nextId,
                                         attrs := logAttrs "x" .warn, ended := true }
    ∧ some c3G1.trace.nextId ≠ (none : Option Nat) :=
  claim_C3 readyState rfl "outer" "inner" "x" .warn
    c3Outer c3G1 (by decide) c3Inner c3G2 (by decide) c3Res (by decide)

/-- Marking a span complete via its handle: if the handle refers to a
span in the store, the ended flag of that span becomes true. -/
theorem updateFirst_find_ended (sid : Nat) (l : List SpanRec) :
    ((updateFirst (fun r => r.sid == sid) (fun r => { r with ended := true }) l).find?
        (fun r => r.sid == sid)).map SpanRec.ended =
      (l.find? (fun r => r.sid == sid)).map (fun _ => true) := by
  induction l with
  | nil => rfl
  | cons r rs ih =>
    by_cases hp : (r.sid == sid) = true
    · simp [updateFirst, hp, List.find?_cons_of_pos]
    · simp only [Bool.not_eq_true] at hp
      simp [updateFirst, hp, List.find?_cons_of_neg, ih]

/-- Ending an already-ended span changes nothing. -/
theorem updateFirst_ended_id (sid : Nat) (l : List SpanRec)
    (h : (l.find? (fun r => r.sid == sid)).map SpanRec.ended = some true) :
    updateFirst (fun r => r.sid == sid) (fun r => { r with ended := true }) l = l := by
  induction l with
  | nil => rfl
  | cons r rs ih =>
    by_cases hp : (r.sid == sid) = true
    · have hf : List.find? (fun x => x.sid == sid) (r :: rs) = some r := by
        simp [List.find?_cons_of_pos, hp]
      rw [hf] at h
      simp at h
      cases r
      simp only at h
      simp [updateFirst, hp, h]
    · simp only [Bool.not_eq_true] at hp
      have hf : List.find? (fun x => x.sid == sid) (r :: rs) =
          List.find? (fun x => x.sid == sid) rs := by
        simp [List.find?_cons_of_neg, hp]
      rw [hf] at h
      simp [updateFirst, hp, ih h]

/-- endSpan marks the referred span complete. -/
theorem endSpan_marks (tr : TraceState) (sid : Nat)
    (h : (spanEnded tr sid).isSome = true) :
    spanEnded (endSpan sid tr) sid = some true := by
  obtain ⟨spans, nid⟩ := tr
  simp only [spanEnded, endSpan] at h ⊢
  rw [updateFirst_find_ended]
  cases hf : spans.find? (fun r => r.sid == sid) with
  | none => rw [hf] at h; simp at h
  | some r => simp [hf]

/-- endSpan on an already-ended span is the identity. -/
theorem endSpan_noop (tr : TraceState) (sid : Nat)
    (h : spanEnded tr sid = some true) :
    endSpan sid tr = tr := by
  obtain ⟨spans, nid⟩ := tr
  simp only [spanEnded] at h
  simp only [endSpan]
  rw [updateFirst_ended_id sid spans h]

/-- A log emit touches no existing span: the ended flag of any span
other than the freshly allocated one is preserved. -/
theorem sendLogTr_preserves_spanEnded (ctx : Ctx) (msg : String) (sev : Severity)
    (tr : TraceState) (sid : Nat) (h : sid ≠ tr.nextId) :
    spanEnded (sendLogTr ctx msg sev tr) sid = spanEnded tr sid := by
  have hb : (tr.nextId == sid) = false := by
    simp [Ne.symm h]
  simp [spanEnded, sendLogTr_eq, List.find?_cons_of_neg, hb]

/-- C5: a span-scoped logger holding an open span has exactly the
transition open to closed: Close marks its span complete; a second
Close leaves the state unchanged (the span is marked complete exactly
once); and no log emit un-ends the span (no transition back). -/
theorem claim_C5 (g : GlobalState) (s : SpanLogger) (sid : Nat)
    (hs : s.span = SpanHandle.real sid)
    (hlt : sid < g.trace.nextId)
    (hopen : spanEnded g.trace sid = some false) :
    ∃ g1, SpanLogger.Close s g = some g1
      ∧ spanEnded g1.trace sid = some true
      ∧ SpanLogger.Close s g1 = some g1
      ∧ (∀ ctx msg sev, spanEnded (sendLogTr ctx msg sev g1.trace) sid = some true)
      ∧ g1.trace.nextId = g.trace.nextId := by
  have hsome : (spanEnded g.trace sid).isSome = true := by rw [hopen]; rfl
  have hmark : spanEnded (endSpan sid g.trace) sid = some true :=
    endSpan_marks g.trace sid hsome
  refine ⟨{ g with trace := endSpan sid g.trace }, ?_, hmark, ?_, ?_, rfl⟩
  · simp [SpanLogger.Close, hs]
  · simp [SpanLogger.Close, hs, endSpan_noop _ _ hmark]
  · intro ctx msg sev
    have hne : sid ≠ (endSpan sid g.trace).nextId := Nat.ne_of_lt hlt
    rw [sendLogTr_preserves_spanEnded _ _ _ _ _ hne]
    exact hmark

/-- Concrete open-scope state used by the C5 witness. -/
def c5State : GlobalState :=
  { readyState with trace :=
      { spans := [{ sid := 0, name := "work", parent := none, attrs := [],
                    ended := false }],
        nextId := 1 } }

/-- Concrete open span-scoped logger used by the C5 witness. -/
def c5Logger : SpanLogger := { spanCtx := { currentSpan := some 0 }, span := .real 0 }

/-- C5 witness: a concrete open scope, closed once and once more. -/
theorem claim_C5_witness :
    ∃ g1, SpanLogger.Close c5Logger c5State = some g1
      ∧ spanEnded g1.trace 0 = some true
      ∧ SpanLogger.Close c5Logger g1 = some g1
      ∧ (∀ ctx msg sev, spanEnded (sendLogTr ctx msg sev g1.trace) 0 = some true)
      ∧ g1.trace.nextId = c5State.trace.nextId :=
  claim_C5 c5State c5Logger 0 rfl (by decide) (by decide)

/-- C9: FromContext on a context carrying no span yields a usable
logger: its Context accessor returns the given context unchanged, its
span handle is the no-op span of the SDK, Close succeeds without panicking
and changes nothing, and each of the six log methods succeeds and
emits a root-level record parented by that context. -/
theorem claim_C9 (g : GlobalState) (ctx : Ctx) (sev : Severity) (msg : String)
    (hc : ctx.currentSpan = none) (hT : g.tracerInstalled = true) :
    SpanLogger.Context (FromContext ctx) = ctx
    ∧ (FromContext ctx).span = SpanHandle.noop
    ∧ SpanLogger.Close (FromContext ctx) g = some g
    ∧ ∃ g1, SpanLogger.logMethod (FromContext ctx) sev msg g = some (FromContext ctx, g1)
        ∧ g1.trace.spans.head? = some { sid := g.trace.nextId, name := msg,
                                        parent := none, attrs := logAttrs msg sev,
                                        ended := true } := by
  refine ⟨rfl, by simp [FromContext, SpanFromContext, hc],
    by simp [SpanLogger.Close, FromContext, SpanFromContext, hc],
    ⟨{ g with trace := sendLogTr ctx msg sev g.trace }, ?_, ?_⟩⟩
  · cases sev <;>
      simp [SpanLogger.logMethod, SpanLogger.Trace, SpanLogger.Debug, SpanLogger.Info,
        SpanLogger.Warn, SpanLogger.Error, SpanLogger.Fatal, sendLog, FromContext, hT]
  · rw [sendLogTr_eq]
    simp [hc]

/-- C9 witness: FromContext on the background context over an
initialized state, logging Debug "d". -/
theorem claim_C9_witness :
    SpanLogger.Context (FromContext Ctx.background) = Ctx.background
    ∧ (FromContext Ctx.background).span = SpanHandle.noop
    ∧ SpanLogger.Close (FromContext Ctx.background) readyState = some readyState
    ∧ ∃ g1, SpanLogger.logMethod (FromContext Ctx.background) .debug "d" readyState =
          some (FromContext Ctx.background, g1)
        ∧ g1.trace.spans.head? = some { sid := readyState.trace.nextId, name := "d",
                                        parent := none, attrs := logAttrs "d" .debug,
                                        ended := true } :=
  claim_C9 readyState Ctx.background .debug "d" rfl rfl

end Logfire
